import Mathlib

/-!
Shallow embedding of the project-management backend
(FastAPI routers over SQLAlchemy core tables) and proofs about its
authorization / visibility behaviour.

Conventions of the embedding:
* Each SQL table is a `List` of row records inside a `DB` state, together
  with a per-table auto-increment counter (`next…`) supplying primary keys.
* `fetch_one` is `List.find?`, `fetch_all` is `List.filter`,
  `UPDATE … WHERE p` maps the update over rows satisfying `p`,
  `DELETE … WHERE p` keeps the rows not satisfying `p`,
  `INSERT` appends the new row and bumps the counter.
* Dates and datetimes are `Nat` ticks; the server clock is passed in as an
  explicit `now` / `today` argument.
* A raised `HTTPException(status_code, detail)` is an `HTTPErr` value; an
  endpoint returns `(Except HTTPErr α) × DB`, the second component being the
  database state after the request (mutations before a raise are kept,
  as in the source, where each statement executes immediately).
* Response-model marshalling (column projections, pydantic re-validation)
  is out of scope; endpoints return whole rows.
* Nullable columns that the application always writes are modelled as plain
  fields; columns the code can actually leave NULL (`TEAM.ROLE`,
  `SPRINT.STAT`, `SPRINT.CREATE_DATE`, `ALERT.P_ID`, `ALERT.I_ID`) are
  `Option`s.
-/

namespace PMBackend

/-- app/models.py `ProjectStatus`. -/
inductive ProjectStatus where
  | IN_PROGRESS
  | COMPLETED
  | ON_HOLD
  | CANCELLED
  deriving DecidableEq, Repr

/-- app/models.py `IssueStatus`. -/
inductive IssueStatus where
  | NOT_CHECKED
  | CHECKED
  | IN_PROGRESS
  | COMPLETED
  | ON_HOLD
  deriving DecidableEq, Repr

/-- app/models.py `PriorityEnum`. -/
inductive PriorityEnum where
  | LOW
  | MEDIUM
  | HIGH
  deriving DecidableEq, Repr

/-- app/models.py `ReleaseEnum`. -/
inductive ReleaseEnum where
  | PUBLIC
  | PRIVATE
  deriving DecidableEq, Repr

/-- app/models.py `AlertTypeEnum`. -/
inductive AlertTypeEnum where
  | TEAM_INVITE
  | ISSUE_NOTIFICATION
  | ISSUE_DEADLINE_NEAR
  | ISSUE_DEADLINE_OVER
  deriving DecidableEq, Repr

/-- app/models.py `SprintStatus`. -/
inductive SprintStatus where
  | TODO
  | PROCESSING
  | REVIEW
  | DONE
  deriving DecidableEq, Repr

/-- A row of the PROJECT table (app/models.py). -/
structure Project where
  P_ID : Nat
  P_NAME : String
  P_CDATE : Nat
  P_STATUS : ProjectStatus
  UID : String
  DISCRIPTION : Option String
  PRIORITY : Option String
  CATEGORY : Option String
  deriving DecidableEq, Repr

/-- A row of the TEAM table (app/models.py); `ROLE` is nullable and
`/teams/add` can insert it as NULL. -/
structure Team where
  T_ID : Nat
  ROLE : Option String
  U_ID : String
  P_ID : Nat
  CREATE_DATE : Nat
  deriving DecidableEq, Repr

/-- A row of the ISSUE table (app/models.py). -/
structure Issue where
  I_ID : Nat
  TITLE : String
  CONTENT : String
  I_STATUS : IssueStatus
  I_RELEASE : ReleaseEnum
  PRIORITY : PriorityEnum
  CREATE_DATE : Nat
  START_DATE : Nat
  EXPIRE_DATE : Nat
  FROM_UID : String
  FOR_UID : String
  P_ID : Nat
  deriving DecidableEq, Repr

/-- A row of the SPRINT table (app/models.py); `create_sprint` inserts no
CREATE_DATE, so the column can be NULL. -/
structure Sprint where
  S_ID : Nat
  TITLE : String
  CONTENTS : String
  P_ID : Nat
  STAT : Option SprintStatus
  CREATE_DATE : Option Nat
  deriving DecidableEq, Repr

/-- A row of the SPRINT_ASSIGN table (app/models.py). -/
structure SprintAssign where
  ID : Nat
  S_ID : Nat
  UID : String
  ASSIGNED_DATE : Nat
  deriving DecidableEq, Repr

/-- A row of the COMMENT table (app/models.py). -/
structure Comment where
  C_ID : Nat
  REF_TYPE : String
  REF_ID : Nat
  UID : String
  CONTENT : String
  CREATE_DATE : Nat
  deriving DecidableEq, Repr

/-- A row of the ALERT table (app/models.py). -/
structure Alert where
  A_ID : Nat
  A_CATEGORY : AlertTypeEnum
  A_CONTENT : String
  A_READ : Bool
  UID : String
  P_ID : Option Nat
  I_ID : Option Nat
  deriving DecidableEq, Repr

/-- The relational store: every table plus its auto-increment counter. -/
structure DB where
  projects : List Project
  teams : List Team
  issues : List Issue
  sprints : List Sprint
  sprintAssigns : List SprintAssign
  comments : List Comment
  alerts : List Alert
  nextPid : Nat
  nextTid : Nat
  nextIid : Nat
  nextSid : Nat
  nextSAid : Nat
  nextCid : Nat
  nextAid : Nat
  deriving DecidableEq, Repr

/-- A raised `fastapi.HTTPException` (status code and detail message). -/
structure HTTPErr where
  status : Nat
  detail : String
  deriving DecidableEq, Repr

/-! ### Request payload schemas (pydantic models, client input)

Note that none of them contains an ownership field (`FROM_UID`,
`Project.UID`, `Comment.UID`) or a creation timestamp: the server cannot
read those from client input even in principle. -/

/-- issue.py `ISSUE_SEND`. -/
structure ISSUE_SEND where
  TITLE : String
  CONTENT : String
  I_STATUS : IssueStatus
  PRIORITY : PriorityEnum
  I_RELEASE : ReleaseEnum
  FOR_UID : String
  START_DATE : Nat
  EXPIRE_DATE : Nat
  deriving DecidableEq, Repr

/-- project.py `ProjectIn`. -/
structure ProjectIn where
  P_NAME : String
  P_STATUS : ProjectStatus
  DISCRIPTION : Option String
  PRIORITY : Option String
  CATEGORY : Option String
  deriving DecidableEq, Repr

/-- project.py `ProjectUpdate` (all fields optional; only non-None ones are
written). -/
structure ProjectUpdate where
  P_NAME : Option String
  DISCRIPTION : Option String
  PRIORITY : Option String
  CATEGORY : Option String
  deriving DecidableEq, Repr

/-- sprint.py `SprintCreate`. -/
structure SprintCreate where
  TITLE : String
  CONTENTS : String
  P_ID : Nat
  STAT : Option SprintStatus
  ASSIGNEES : Option (List String)
  deriving DecidableEq, Repr

/-- sprint.py `SprintUpdate`. -/
structure SprintUpdate where
  STAT : SprintStatus
  deriving DecidableEq, Repr

/-- sprint.py `SprintAssignIn`. -/
structure SprintAssignIn where
  S_ID : Nat
  UID : String
  deriving DecidableEq, Repr

/-- comment.py `CommentCreate`. -/
structure CommentCreate where
  CONTENT : String
  deriving DecidableEq, Repr

/-- alert.py `AlertCreate`; `UID` is the declared recipient. -/
structure AlertCreate where
  A_CATEGORY : AlertTypeEnum
  A_CONTENT : String
  UID : String
  P_ID : Option Nat
  I_ID : Option Nat
  deriving DecidableEq, Repr

/-! ### Generic list helpers (ORDER BY … DESC as insertion sort) -/

/-- Insert one element into a list sorted descending by `key`. -/
def insertDesc {α : Type} (key : α → Nat) (a : α) : List α → List α
  | [] => [a]
  | b :: l => if key b < key a then a :: b :: l else b :: insertDesc key a l

/-- `ORDER BY key DESC`: insertion sort, descending by `key`. -/
def orderByDesc {α : Type} (key : α → Nat) : List α → List α
  | [] => []
  | a :: l => insertDesc key a (orderByDesc key l)

/-! ### Endpoint embeddings

Each definition translates one route handler; the SQL `WHERE` clauses are
Bool predicates, written exactly in the source's clause order. -/

/-- The WHERE clause shared by `get_issues` and `view_issue` (issue.py):
`I_RELEASE == PUBLIC OR (I_RELEASE == PRIVATE AND (FOR_UID == caller OR
FROM_UID == caller))`. -/
def issueVisibleB (uid : String) (i : Issue) : Bool :=
  i.I_RELEASE == ReleaseEnum.PUBLIC ||
    (i.I_RELEASE == ReleaseEnum.PRIVATE &&
      (i.FOR_UID == uid || i.FROM_UID == uid))

/-- issue.py `get_issues` (GET /issues/view/\x7bproject_id\x7d): all issues of
the project the caller may see, ordered by CREATE_DATE descending; raises
404 when the filtered set is empty. (The source types `project_id` as `str`;
the store coerces it against the integer `P_ID` column, so it is a `Nat`
here. The SELECT's column projection is marshalling and not modelled.) -/
def get_issues (project_id : Nat) (uid : String) (db : DB) :
    Except HTTPErr (List Issue) :=
  let rows := orderByDesc Issue.CREATE_DATE
    (db.issues.filter fun i => i.P_ID == project_id && issueVisibleB uid i)
  if rows.isEmpty then .error ⟨404, "Issue not found"⟩ else .ok rows

/-- issue.py `view_issue` (GET /issues/\x7bissue_id\x7d): fetch one issue by id,
subject to the same visibility clause; 404 when no row matches. -/
def view_issue (issue_id : Nat) (uid : String) (db : DB) :
    Except HTTPErr Issue :=
  match db.issues.find? (fun i => i.I_ID == issue_id && issueVisibleB uid i) with
  | some r => .ok r
  | none => .error ⟨404, "Issue not found"⟩

/-- issue.py `create_issue` (POST /issues/create/\x7bproject_id\x7d): insert a row
whose FROM_UID is the caller and CREATE_DATE is the server clock; returns the
inserted values. -/
def create_issue (project_id : Nat) (data : ISSUE_SEND) (uid : String)
    (now : Nat) (db : DB) : Issue × DB :=
  let row : Issue :=
    { I_ID := db.nextIid, TITLE := data.TITLE, CONTENT := data.CONTENT,
      I_STATUS := data.I_STATUS, I_RELEASE := data.I_RELEASE,
      PRIORITY := data.PRIORITY, CREATE_DATE := now,
      START_DATE := data.START_DATE, EXPIRE_DATE := data.EXPIRE_DATE,
      FROM_UID := uid, FOR_UID := data.FOR_UID, P_ID := project_id }
  (row, { db with issues := db.issues ++ [row], nextIid := db.nextIid + 1 })

/-- The WHERE clause of `update_issue` / `delete_issue` (issue.py):
`I_ID == issue_id AND (FOR_UID == caller OR FROM_UID == caller)`. -/
def issueOwnB (issue_id : Nat) (uid : String) (i : Issue) : Bool :=
  i.I_ID == issue_id && (i.FOR_UID == uid || i.FROM_UID == uid)

/-- The UPDATE … SET of issue.py `update_issue`: every payload field is
written, including FOR_UID; FROM_UID, CREATE_DATE, P_ID and I_ID are not in
the SET list and keep their values. -/
def applyIssueUpdate (data : ISSUE_SEND) (i : Issue) : Issue :=
  { i with TITLE := data.TITLE, CONTENT := data.CONTENT,
           I_STATUS := data.I_STATUS, PRIORITY := data.PRIORITY,
           I_RELEASE := data.I_RELEASE, START_DATE := data.START_DATE,
           EXPIRE_DATE := data.EXPIRE_DATE, FOR_UID := data.FOR_UID }

/-- issue.py `update_issue` (POST /issues/update/\x7bissue_id\x7d): fetch the row
by id restricted to sender/recipient (404 if none), re-check the permission
(dead branch, kept from the source), update the matching rows, then re-fetch
by bare id and return it. The source's `if revised_rows == 0: pass` is a
no-op and is not modelled. -/
def update_issue (issue_id : Nat) (data : ISSUE_SEND) (uid : String)
    (db : DB) : (Except HTTPErr (Option Issue)) × DB :=
  match db.issues.find? (issueOwnB issue_id uid) with
  | none => (.error ⟨404, "Issue not found"⟩, db)
  | some db_issue =>
    if !(db_issue.FROM_UID == uid || db_issue.FOR_UID == uid) then
      (.error ⟨403, "You do not have permission to view this issue"⟩, db)
    else
      let db' := { db with issues := db.issues.map fun i =>
        if (issueOwnB issue_id uid i) then applyIssueUpdate data i else i }
      (.ok (db'.issues.find? fun i => i.I_ID == issue_id), db')

/-- project.py `create_project` (POST /projects/): insert a row whose UID is
the caller and P_CDATE the server clock; P_ID from auto-increment. -/
def create_project (data : ProjectIn) (uid : String) (now : Nat) (db : DB) :
    Project × DB :=
  let row : Project :=
    { P_ID := db.nextPid, P_NAME := data.P_NAME, P_CDATE := now,
      P_STATUS := data.P_STATUS, UID := uid,
      DISCRIPTION := data.DISCRIPTION, PRIORITY := data.PRIORITY,
      CATEGORY := data.CATEGORY }
  (row, { db with projects := db.projects ++ [row],
                  nextPid := db.nextPid + 1 })

/-- The PM check of project.py `update_project` / `delete_project`:
fetch one TEAM row with the project id, the caller's UID and ROLE "PM". -/
def pmCheck (project_id : Nat) (uid : String) (db : DB) : Option Team :=
  db.teams.find? fun t =>
    t.P_ID == project_id && t.U_ID == uid && t.ROLE == some "PM"

/-- The `{k: v for k, v in data.dict().items() if v is not None}` UPDATE of
project.py `update_project`: only non-None payload fields are written. -/
def applyProjectUpdate (data : ProjectUpdate) (p : Project) : Project :=
  { p with
    P_NAME := match data.P_NAME with | some v => v | none => p.P_NAME,
    DISCRIPTION := match data.DISCRIPTION with
                   | some v => some v | none => p.DISCRIPTION,
    PRIORITY := match data.PRIORITY with
                | some v => some v | none => p.PRIORITY,
    CATEGORY := match data.CATEGORY with
                | some v => some v | none => p.CATEGORY }

/-- project.py `update_project` (PUT /projects/\x7bproject_id\x7d): PM check first
(403 if the caller has no PM team row), then existence check (404), then
UPDATE and re-fetch. -/
def update_project (project_id : Nat) (data : ProjectUpdate) (uid : String)
    (db : DB) : (Except HTTPErr (Option Project)) × DB :=
  match pmCheck project_id uid db with
  | none => (.error ⟨403, "이 프로젝트의 PM만 수정할 수 있습니다."⟩, db)
  | some _ =>
    match db.projects.find? (fun p => p.P_ID == project_id) with
    | none => (.error ⟨404, "프로젝트를 찾을 수 없습니다."⟩, db)
    | some _ =>
      let db' := { db with projects := db.projects.map fun p =>
        if p.P_ID == project_id then applyProjectUpdate data p else p }
      (.ok (db'.projects.find? fun p => p.P_ID == project_id), db')

/-- project.py `delete_project` (DELETE /projects/\x7bproject_id\x7d): PM check
first (403), existence check (404), then DELETE the TEAM rows of the project
and DELETE the project row. -/
def delete_project (project_id : Nat) (uid : String) (db : DB) :
    (Except HTTPErr String) × DB :=
  match pmCheck project_id uid db with
  | none => (.error ⟨403, "PM만 프로젝트를 삭제할 수 있습니다."⟩, db)
  | some _ =>
    match db.projects.find? (fun p => p.P_ID == project_id) with
    | none => (.error ⟨404, "해당 프로젝트가 존재하지 않습니다."⟩, db)
    | some _ =>
      let db1 := { db with
        teams := db.teams.filter fun t => !(t.P_ID == project_id) }
      let db2 := { db1 with
        projects := db1.projects.filter fun p => !(p.P_ID == project_id) }
      (.ok ("프로젝트 ID " ++ toString project_id ++
            " 및 관련 팀이 삭제되었습니다."), db2)

/-- team.py `get_teams` (GET /teams/): the whole TEAM table. -/
def get_teams (db : DB) : List Team :=
  db.teams

/-- comment.py `create_comment` (POST /comments/\x7bref_type\x7d/\x7bref_id\x7d):
insert a row with REF_TYPE upper-cased, UID the caller and CREATE_DATE the
server clock, then re-fetch the created row by id. -/
def create_comment (ref_type : String) (ref_id : Nat) (data : CommentCreate)
    (uid : String) (now : Nat) (db : DB) : Option Comment × DB :=
  let row : Comment :=
    { C_ID := db.nextCid, REF_TYPE := ref_type.toUpper, REF_ID := ref_id,
      UID := uid, CONTENT := data.CONTENT, CREATE_DATE := now }
  let db' := { db with comments := db.comments ++ [row],
                       nextCid := db.nextCid + 1 }
  (db'.comments.find? fun c => c.C_ID == db.nextCid, db')

/-- alert.py `create_alert` (POST /alerts/create): insert a row whose
recipient UID comes from the payload (`data.UID`); there is no comparison
with the caller's UID anywhere in the handler. After the insert the source
checks `if not last_record_id` (falsy id, i.e. 0 → 500) and re-fetches the
created row (404 if absent). The try/except around the store call (500 on
store failure) is a store-collaborator failure and is not modelled. -/
def create_alert (data : AlertCreate) (uid : String) (db : DB) :
    (Except HTTPErr Alert) × DB :=
  let last_record_id := db.nextAid
  let row : Alert :=
    { A_ID := last_record_id, A_CATEGORY := data.A_CATEGORY,
      A_CONTENT := data.A_CONTENT, A_READ := false, UID := data.UID,
      P_ID := data.P_ID, I_ID := data.I_ID }
  let db' := { db with alerts := db.alerts ++ [row],
                       nextAid := db.nextAid + 1 }
  if last_record_id == 0 then
    (.error ⟨500, "Failed to create alert, no ID returned."⟩, db')
  else
    match db'.alerts.find? (fun a => a.A_ID == last_record_id) with
    | some r => (.ok r, db')
    | none => (.error ⟨404, "Newly created alert not found."⟩, db')

/-- The assignment loop of sprint.py `create_sprint`: one INSERT into
SPRINT_ASSIGN per element of the UID list, in order, duplicates included. -/
def insertAssignRows (s_id today : Nat) (uids : List String) (db : DB) : DB :=
  match uids with
  | [] => db
  | u :: rest =>
      insertAssignRows s_id today rest
        { db with
          sprintAssigns := db.sprintAssigns ++
            [{ ID := db.nextSAid, S_ID := s_id, UID := u,
               ASSIGNED_DATE := today }],
          nextSAid := db.nextSAid + 1 }

/-- The response dict of sprint.py `create_sprint` (`sprint_data` plus S_ID
and CREATE_DATE). -/
structure SprintOut where
  S_ID : Nat
  TITLE : String
  CONTENTS : String
  P_ID : Nat
  STAT : Option SprintStatus
  CREATE_DATE : Nat
  deriving DecidableEq, Repr

/-- sprint.py `create_sprint` (POST /sprints/create): insert the SPRINT row
(without CREATE_DATE — the column stays NULL), then insert one SPRINT_ASSIGN
row per listed UID with no duplicate check and no error path; the response
claims today's date as CREATE_DATE. `if data.ASSIGNEES:` is Python
truthiness: None and the empty list both skip the loop (an empty loop is a
no-op either way, so only `none` is distinguished here). -/
def create_sprint (data : SprintCreate) (uid : String) (today : Nat)
    (db : DB) : SprintOut × DB :=
  let new_sprint_id := db.nextSid
  let db1 := { db with
    sprints := db.sprints ++
      [{ S_ID := new_sprint_id, TITLE := data.TITLE,
         CONTENTS := data.CONTENTS, P_ID := data.P_ID, STAT := data.STAT,
         CREATE_DATE := none }],
    nextSid := db.nextSid + 1 }
  let db2 := match data.ASSIGNEES with
    | some l => insertAssignRows new_sprint_id today l db1
    | none => db1
  ({ S_ID := new_sprint_id, TITLE := data.TITLE, CONTENTS := data.CONTENTS,
     P_ID := data.P_ID, STAT := data.STAT, CREATE_DATE := today }, db2)

/-- sprint.py `update_sprint_stat` (PUT /sprints/\x7bsprint_id\x7d): existence
check (404 if absent), UPDATE the STAT column, re-fetch and return. -/
def update_sprint_stat (sprint_id : Nat) (data : SprintUpdate) (uid : String)
    (db : DB) : (Except HTTPErr (Option Sprint)) × DB :=
  match db.sprints.find? (fun s => s.S_ID == sprint_id) with
  | none => (.error ⟨404, "해당 스프린트를 찾을 수 없습니다."⟩, db)
  | some _ =>
    let db' := { db with sprints := db.sprints.map fun s =>
      if s.S_ID == sprint_id then { s with STAT := some data.STAT } else s }
    (.ok (db'.sprints.find? fun s => s.S_ID == sprint_id), db')

/-- sprint.py `assign_user_to_sprint` (POST /sprint-assign): reject with 400
when a SPRINT_ASSIGN row for the (S_ID, UID) pair already exists, otherwise
insert exactly one row and re-fetch it by its new id. -/
def assign_user_to_sprint (data : SprintAssignIn) (uid : String)
    (today : Nat) (db : DB) : (Except HTTPErr (Option SprintAssign)) × DB :=
  match db.sprintAssigns.find?
      (fun r => r.S_ID == data.S_ID && r.UID == data.UID) with
  | some _ => (.error ⟨400, "이미 해당 사용자에게 할당됨"⟩, db)
  | none =>
    let new_id := db.nextSAid
    let row : SprintAssign :=
      { ID := new_id, S_ID := data.S_ID, UID := data.UID,
        ASSIGNED_DATE := today }
    let db' := { db with sprintAssigns := db.sprintAssigns ++ [row],
                         nextSAid := db.nextSAid + 1 }
    (.ok (db'.sprintAssigns.find? fun r => r.ID == new_id), db')

/-- The rows the assignment loop of `create_sprint` produces for a UID list,
starting from auto-increment value `n` (specification device for
`insertAssignRows`). -/
def mkAssignRows (s_id today : Nat) : List String → Nat → List SprintAssign
  | [], _ => []
  | u :: rest, n =>
      { ID := n, S_ID := s_id, UID := u, ASSIGNED_DATE := today } ::
        mkAssignRows s_id today rest (n + 1)

/-! ### Concrete stores for witnesses and counterexamples -/

/-- A store with empty tables and all auto-increment counters at 1. -/
def emptyDB : DB :=
  { projects := [], teams := [], issues := [], sprints := [],
    sprintAssigns := [], comments := [], alerts := [], nextPid := 1,
    nextTid := 1, nextIid := 1, nextSid := 1, nextSAid := 1, nextCid := 1,
    nextAid := 1 }

/-- A PRIVATE issue from "alice" to "bob" in project 1. -/
def issueA : Issue :=
  { I_ID := 1, TITLE := "t", CONTENT := "c", I_STATUS := .NOT_CHECKED,
    I_RELEASE := .PRIVATE, PRIORITY := .LOW, CREATE_DATE := 5,
    START_DATE := 1, EXPIRE_DATE := 9, FROM_UID := "alice",
    FOR_UID := "bob", P_ID := 1 }

/-- Project 1, created by "alice". -/
def projectA : Project :=
  { P_ID := 1, P_NAME := "p", P_CDATE := 0, P_STATUS := .IN_PROGRESS,
    UID := "alice", DISCRIPTION := none, PRIORITY := none,
    CATEGORY := none }

/-- "alice" is PM of project 1. -/
def teamPM : Team :=
  { T_ID := 1, ROLE := some "PM", U_ID := "alice", P_ID := 1,
    CREATE_DATE := 0 }

/-- "bob" is a plain member of project 1. -/
def teamMem : Team :=
  { T_ID := 2, ROLE := some "MEMBER", U_ID := "bob", P_ID := 1,
    CREATE_DATE := 0 }

/-- Sprint 1 of project 1. -/
def sprintA : Sprint :=
  { S_ID := 1, TITLE := "s", CONTENTS := "c", P_ID := 1,
    STAT := some .TODO, CREATE_DATE := none }

/-- "bob" already assigned to sprint 1. -/
def assignA : SprintAssign :=
  { ID := 1, S_ID := 1, UID := "bob", ASSIGNED_DATE := 0 }

/-- An alert addressed to "bob", back-referencing project 1. -/
def alertA : Alert :=
  { A_ID := 1, A_CATEGORY := .TEAM_INVITE, A_CONTENT := "x",
    A_READ := false, UID := "bob", P_ID := some 1, I_ID := none }

/-- Store holding only the PRIVATE issue `issueA`. -/
def dbIssue : DB := { emptyDB with issues := [issueA], nextIid := 2 }

/-- Store holding project 1 with "alice" as its PM. -/
def dbProject : DB :=
  { emptyDB with projects := [projectA], teams := [teamPM], nextPid := 2,
                 nextTid := 2 }

/-- Store holding project 1, its two TEAM rows and dependent issue, sprint
and alert rows. -/
def dbFull : DB :=
  { emptyDB with projects := [projectA], teams := [teamPM, teamMem],
                 issues := [issueA], sprints := [sprintA],
                 alerts := [alertA], nextPid := 2, nextTid := 3,
                 nextIid := 2, nextSid := 2, nextAid := 2 }

/-- Store where "bob" is already assigned to sprint 1. -/
def dbAssigned : DB :=
  { emptyDB with sprints := [sprintA], sprintAssigns := [assignA],
                 nextSid := 2, nextSAid := 2 }

/-- An all-None project update payload. -/
def pdata0 : ProjectUpdate :=
  { P_NAME := none, DISCRIPTION := none, PRIORITY := none,
    CATEGORY := none }

/-- An issue payload reassigning the recipient to "carol". -/
def idata0 : ISSUE_SEND :=
  { TITLE := "t2", CONTENT := "c2", I_STATUS := .CHECKED,
    PRIORITY := .HIGH, I_RELEASE := .PUBLIC, FOR_UID := "carol",
    START_DATE := 2, EXPIRE_DATE := 8 }

/-- An alert-create payload declaring "bob" as recipient. -/
def adataBob : AlertCreate :=
  { A_CATEGORY := .TEAM_INVITE, A_CONTENT := "hi", UID := "bob",
    P_ID := none, I_ID := none }

/-- A sprint-create payload whose assignee list repeats "u1". -/
def sdataDup : SprintCreate :=
  { TITLE := "s", CONTENTS := "c", P_ID := 1, STAT := some .TODO,
    ASSIGNEES := some ["u1", "u2", "u1"] }

/-! ### Library lemmas about the store helpers -/

theorem mem_insertDesc {α : Type} (key : α → Nat) (a x : α) (l : List α) :
    x ∈ insertDesc key a l ↔ x = a ∨ x ∈ l := by
  induction l with
  | nil => simp [insertDesc]
  | cons b l ih =>
      by_cases h : key b < key a
      · simp [insertDesc, h]
      · simp [insertDesc, h, ih]
        tauto

theorem mem_orderByDesc {α : Type} (key : α → Nat) (x : α) (l : List α) :
    x ∈ orderByDesc key l ↔ x ∈ l := by
  induction l with
  | nil => simp [orderByDesc]
  | cons a l ih => simp [orderByDesc, mem_insertDesc, ih]

theorem orderByDesc_eq_nil_iff {α : Type} (key : α → Nat) (l : List α) :
    orderByDesc key l = [] ↔ l = [] := by
  cases l with
  | nil => simp [orderByDesc]
  | cons a l =>
      simp only [orderByDesc]
      constructor
      · intro h
        have : a ∈ insertDesc key a (orderByDesc key l) :=
          (mem_insertDesc key a a _).mpr (Or.inl rfl)
        rw [h] at this
        exact absurd this (List.not_mem_nil a)
      · intro h
        exact absurd h (List.cons_ne_nil a l)

/-- `fetch_one` over a table whose `key` column is duplicate-free finds the
unique row `a` whenever `a` matches the predicate and the predicate pins
down the key. -/
theorem find_eq_of_key_nodup {α : Type} (key : α → Nat) (l : List α) (a : α)
    (p : α → Bool) (hn : (l.map key).Nodup) (ha : a ∈ l) (hp : p a = true)
    (hkey : ∀ b, p b = true → key b = key a) :
    l.find? p = some a := by
  induction l with
  | nil => exact absurd ha (List.not_mem_nil a)
  | cons x xs ih =>
      rw [List.map_cons, List.nodup_cons] at hn
      by_cases hx : p x = true
      · rw [List.find?_cons_of_pos _ hx]
        rcases List.mem_cons.mp ha with h | h
        · rw [h]
        · exact absurd (hkey x hx ▸ List.mem_map_of_mem key h) hn.1
      · rw [List.find?_cons_of_neg _ (by simpa using hx)]
        rcases List.mem_cons.mp ha with h | h
        · exact absurd (h ▸ hp) hx
        · exact ih hn.2 h

/-- `fetch_one` over an INSERT-extended table falls through to the appended
rows when nothing in the old table matches. -/
theorem find_append_of_none {α : Type} (l1 l2 : List α) (p : α → Bool)
    (h : l1.find? p = none) : (l1 ++ l2).find? p = l2.find? p := by
  rw [List.find?_eq_none] at h
  induction l1 with
  | nil => simp
  | cons x xs ih =>
      rw [List.cons_append,
        List.find?_cons_of_neg _ (h x (List.mem_cons_self x xs))]
      exact ih fun a ha => h a (List.mem_cons_of_mem x ha)

/-- The visibility clause evaluated on a PRIVATE issue reduces to
"the caller is the recipient or the sender". -/
theorem issueVisibleB_private (uid : String) (i : Issue)
    (h : i.I_RELEASE = ReleaseEnum.PRIVATE) :
    issueVisibleB uid i = true ↔ (uid = i.FROM_UID ∨ uid = i.FOR_UID) := by
  simp only [issueVisibleB, h, Bool.or_eq_true, Bool.and_eq_true, beq_iff_eq]
  constructor
  · rintro (hpub | ⟨-, hfor | hfrom⟩)
    · exact absurd hpub (by decide)
    · exact Or.inr hfor.symm
    · exact Or.inl hfrom.symm
  · rintro (hfrom | hfor)
    · exact Or.inr ⟨trivial, Or.inr hfrom.symm⟩
    · exact Or.inr ⟨trivial, Or.inl hfor.symm⟩

/-- The visibility clause evaluated on a PUBLIC issue is always true. -/
theorem issueVisibleB_public (uid : String) (i : Issue)
    (h : i.I_RELEASE = ReleaseEnum.PUBLIC) :
    issueVisibleB uid i = true := by
  simp [issueVisibleB, h]

/-- The PM check finds nothing exactly when no TEAM row grants the caller
the "PM" role on the project. -/
theorem pmCheck_eq_none_iff (project_id : Nat) (uid : String) (db : DB) :
    pmCheck project_id uid db = none ↔
      ¬ ∃ t ∈ db.teams,
          t.P_ID = project_id ∧ t.U_ID = uid ∧ t.ROLE = some "PM" := by
  unfold pmCheck
  rw [List.find?_eq_none]
  constructor
  · rintro h ⟨t, ht, h1, h2, h3⟩
    exact h t ht (by simp [h1, h2, h3])
  · intro h t ht hp
    simp only [Bool.and_eq_true, beq_iff_eq] at hp
    exact h ⟨t, ht, hp.1.1, hp.1.2, hp.2⟩

/-- A row is in a successful `get_issues` answer exactly when it is a table
row of the project that passes the visibility clause. -/
theorem mem_get_issues_iff (project_id : Nat) (uid : String) (db : DB)
    (i : Issue) :
    (∃ l, get_issues project_id uid db = .ok l ∧ i ∈ l) ↔
      (i ∈ db.issues ∧
        (i.P_ID == project_id && issueVisibleB uid i) = true) := by
  constructor
  · rintro ⟨l, hl, hil⟩
    simp only [get_issues] at hl
    split at hl
    · cases hl
    · cases hl
      have := (mem_orderByDesc Issue.CREATE_DATE i _).mp hil
      exact List.mem_filter.mp this
  · rintro ⟨hmem, hpred⟩
    have hfil : i ∈ db.issues.filter
        (fun j => j.P_ID == project_id && issueVisibleB uid j) :=
      List.mem_filter.mpr ⟨hmem, hpred⟩
    have hrow : i ∈ orderByDesc Issue.CREATE_DATE
        (db.issues.filter
          (fun j => j.P_ID == project_id && issueVisibleB uid j)) :=
      (mem_orderByDesc Issue.CREATE_DATE i _).mpr hfil
    refine ⟨_, ?_, hrow⟩
    simp only [get_issues]
    rw [if_neg]
    simp only [List.isEmpty_iff]
    exact List.ne_nil_of_mem hrow

/-- `view_issue` answers the unique row carrying the requested id whenever
that row passes the visibility clause (primary keys assumed unique). -/
theorem view_issue_ok_of_visible (db : DB) (uid : String) (i : Issue)
    (hpk : (db.issues.map Issue.I_ID).Nodup) (hi : i ∈ db.issues)
    (hvis : issueVisibleB uid i = true) :
    view_issue i.I_ID uid db = .ok i := by
  unfold view_issue
  rw [find_eq_of_key_nodup Issue.I_ID db.issues i _ hpk hi
    (by simp [hvis]) ?_]
  intro b hb
  simp only [Bool.and_eq_true, beq_iff_eq] at hb
  exact hb.1

/-- Any row `view_issue` answers is a table row with the requested id that
passes the visibility clause. -/
theorem view_issue_ok_inv (db : DB) (uid : String) (issue_id : Nat)
    (r : Issue) (h : view_issue issue_id uid db = .ok r) :
    r ∈ db.issues ∧ r.I_ID = issue_id ∧ issueVisibleB uid r = true := by
  unfold view_issue at h
  cases hf : db.issues.find?
      (fun i => i.I_ID == issue_id && issueVisibleB uid i) with
  | none => rw [hf] at h; cases h
  | some x =>
      rw [hf] at h
      cases h
      have hp := List.find?_some hf
      simp only [Bool.and_eq_true, beq_iff_eq] at hp
      exact ⟨List.mem_of_find?_eq_some hf, hp.1, hp.2⟩

/-- Claim C9: when the set of issues of a project visible to the caller is
empty — no rows at all, or only other users' PRIVATE rows — the list
operation GET /issues/view/\x7bproject_id\x7d fails with 404 "Issue not found"
instead of returning an empty list (and 404 arises in no other case). -/
theorem get_issues_404_iff_no_visible_row (project_id : Nat) (uid : String)
    (db : DB) :
    get_issues project_id uid db = .error ⟨404, "Issue not found"⟩ ↔
      db.issues.filter
        (fun i => i.P_ID == project_id && issueVisibleB uid i) = [] := by
  simp only [get_issues]
  by_cases h : db.issues.filter
      (fun i => i.P_ID == project_id && issueVisibleB uid i) = []
  · simp [h, List.isEmpty_iff, orderByDesc_eq_nil_iff]
  · simp [h, List.isEmpty_iff, orderByDesc_eq_nil_iff]

/-- Claim C7: every create operation writes the caller's verified UID into
the row's ownership field (Issue.FROM_UID, Project.UID, Comment.UID) and the
server clock into its creation timestamp, for every client payload — the
payload schemas do not even carry these fields, so they cannot come from
client input. -/
theorem create_ownership_server_assigned (project_id : Nat)
    (idata : ISSUE_SEND) (pdata : ProjectIn) (ref_type : String)
    (ref_id : Nat) (cdata : CommentCreate) (uid : String) (now : Nat)
    (db : DB) :
    ((create_issue project_id idata uid now db).2.issues.getLast?.map
        Issue.FROM_UID = some uid ∧
      (create_issue project_id idata uid now db).2.issues.getLast?.map
        Issue.CREATE_DATE = some now) ∧
    ((create_project pdata uid now db).2.projects.getLast?.map
        Project.UID = some uid ∧
      (create_project pdata uid now db).2.projects.getLast?.map
        Project.P_CDATE = some now) ∧
    ((create_comment ref_type ref_id cdata uid now db).2.comments.getLast?.map
        Comment.UID = some uid ∧
      (create_comment ref_type ref_id cdata uid now db).2.comments.getLast?.map
        Comment.CREATE_DATE = some now) := by
  simp [create_issue, create_project, create_comment]

/-- Claim C1: a PRIVATE issue row is returned by the per-project list
(GET /issues/view/\x7bproject_id\x7d) and by the single-issue get
(GET /issues/\x7bissue_id\x7d) iff the caller's UID equals the row's FROM_UID or
FOR_UID; a PUBLIC row is returned by both operations for any authenticated
caller. Primary keys are assumed unique (I_ID is the table's PK). -/
theorem issue_read_visibility (db : DB) (uid : String) (i : Issue)
    (hpk : (db.issues.map Issue.I_ID).Nodup) (hi : i ∈ db.issues) :
    (i.I_RELEASE = ReleaseEnum.PRIVATE →
      (((∃ l, get_issues i.P_ID uid db = .ok l ∧ i ∈ l) ↔
          (uid = i.FROM_UID ∨ uid = i.FOR_UID)) ∧
        ((view_issue i.I_ID uid db = .ok i) ↔
          (uid = i.FROM_UID ∨ uid = i.FOR_UID)))) ∧
    (i.I_RELEASE = ReleaseEnum.PUBLIC →
      ((∃ l, get_issues i.P_ID uid db = .ok l ∧ i ∈ l) ∧
        view_issue i.I_ID uid db = .ok i)) := by
  constructor
  · intro hpriv
    constructor
    · rw [mem_get_issues_iff]
      constructor
      · rintro ⟨-, hpred⟩
        simp only [Bool.and_eq_true] at hpred
        exact (issueVisibleB_private uid i hpriv).mp hpred.2
      · intro hperm
        refine ⟨hi, ?_⟩
        simp only [Bool.and_eq_true, beq_iff_eq]
        exact ⟨trivial, (issueVisibleB_private uid i hpriv).mpr hperm⟩
    · constructor
      · intro hok
        exact (issueVisibleB_private uid i hpriv).mp
          (view_issue_ok_inv db uid i.I_ID i hok).2.2
      · intro hperm
        exact view_issue_ok_of_visible db uid i hpk hi
          ((issueVisibleB_private uid i hpriv).mpr hperm)
  · intro hpub
    have hvis := issueVisibleB_public uid i hpub
    refine ⟨?_, view_issue_ok_of_visible db uid i hpk hi hvis⟩
    rw [mem_get_issues_iff]
    exact ⟨hi, by simp [hvis]⟩

/-- Claim C1 witness: in the concrete store `dbIssue`, the sender "alice"
retrieves the PRIVATE issue `issueA` through the single-issue get. -/
theorem issue_read_visibility_witness :
    view_issue 1 "alice" dbIssue = .ok issueA :=
  ((issue_read_visibility dbIssue "alice" issueA (by decide)
      (by decide)).1 rfl).2.mpr (Or.inl rfl)

/-- When a project row with the id exists, `fetch_one` on PROJECT by id
cannot come back empty. -/
theorem find_project_isSome (db : DB) (project_id : Nat)
    (hp : ∃ p ∈ db.projects, p.P_ID = project_id) :
    db.projects.find? (fun p => p.P_ID == project_id) ≠ none := by
  intro h
  rw [List.find?_eq_none] at h
  obtain ⟨p, hmem, hpid⟩ := hp
  exact h p hmem (by simp [hpid])

/-- Claim C2: for an existing Project, PUT /projects/\x7bproject_id\x7d and
DELETE /projects/\x7bproject_id\x7d succeed iff a TEAM row with that P_ID, the
caller's UID and ROLE "PM" exists; without one both answer 403 Forbidden and
leave the store untouched. -/
theorem project_write_requires_pm (project_id : Nat) (data : ProjectUpdate)
    (uid : String) (db : DB)
    (hp : ∃ p ∈ db.projects, p.P_ID = project_id) :
    ((∃ r, (update_project project_id data uid db).1 = .ok r) ↔
        (∃ t ∈ db.teams,
          t.P_ID = project_id ∧ t.U_ID = uid ∧ t.ROLE = some "PM")) ∧
    ((∃ m, (delete_project project_id uid db).1 = .ok m) ↔
        (∃ t ∈ db.teams,
          t.P_ID = project_id ∧ t.U_ID = uid ∧ t.ROLE = some "PM")) ∧
    ((¬ ∃ t ∈ db.teams,
          t.P_ID = project_id ∧ t.U_ID = uid ∧ t.ROLE = some "PM") →
      update_project project_id data uid db =
          (.error ⟨403, "이 프로젝트의 PM만 수정할 수 있습니다."⟩, db) ∧
        delete_project project_id uid db =
          (.error ⟨403, "PM만 프로젝트를 삭제할 수 있습니다."⟩, db)) := by
  cases hpm : pmCheck project_id uid db with
  | none =>
      have hno := (pmCheck_eq_none_iff project_id uid db).mp hpm
      refine ⟨?_, ?_, ?_⟩
      · simp [update_project, hpm, hno]
      · simp [delete_project, hpm, hno]
      · intro _
        exact ⟨by simp [update_project, hpm], by simp [delete_project, hpm]⟩
  | some t =>
      have hyes : ∃ t ∈ db.teams,
          t.P_ID = project_id ∧ t.U_ID = uid ∧ t.ROLE = some "PM" := by
        by_contra hno
        rw [← pmCheck_eq_none_iff] at hno
        rw [hpm] at hno
        cases hno
      cases hfp : db.projects.find? (fun p => p.P_ID == project_id) with
      | none => exact absurd hfp (find_project_isSome db project_id hp)
      | some p =>
          refine ⟨?_, ?_, ?_⟩
          · simp [update_project, hpm, hfp, hyes]
          · simp [delete_project, hpm, hfp, hyes]
          · intro hno
            exact absurd hyes hno

/-- Claim C2 witness: "bob", who has no PM TEAM row on project 1 of
`dbProject`, is refused with 403 by both the update and the delete, and the
store is unchanged. -/
theorem project_write_requires_pm_witness :
    update_project 1 pdata0 "bob" dbProject =
        (.error ⟨403, "이 프로젝트의 PM만 수정할 수 있습니다."⟩, dbProject) ∧
      delete_project 1 "bob" dbProject =
        (.error ⟨403, "PM만 프로젝트를 삭제할 수 있습니다."⟩, dbProject) :=
  (project_write_requires_pm 1 pdata0 "bob" dbProject
      ⟨projectA, by decide, rfl⟩).2.2 (by decide)

/-- Claim C6: a PM's successful DELETE /projects/\x7bproject_id\x7d removes every
TEAM row of the project and then the project row, so the subsequent team
listing has no row with that P_ID, while ISSUE, SPRINT, SPRINT_ASSIGN, ALERT
and COMMENT rows are left untouched (dangling). -/
theorem delete_project_cascades_teams_only (project_id : Nat) (uid : String)
    (db : DB)
    (hpm : ∃ t ∈ db.teams,
      t.P_ID = project_id ∧ t.U_ID = uid ∧ t.ROLE = some "PM")
    (hp : ∃ p ∈ db.projects, p.P_ID = project_id) :
    (delete_project project_id uid db).1 =
        .ok ("프로젝트 ID " ++ toString project_id ++
          " 및 관련 팀이 삭제되었습니다.") ∧
    (∀ t ∈ get_teams (delete_project project_id uid db).2,
        t.P_ID ≠ project_id) ∧
    (∀ p ∈ (delete_project project_id uid db).2.projects,
        p.P_ID ≠ project_id) ∧
    (delete_project project_id uid db).2.issues = db.issues ∧
    (delete_project project_id uid db).2.sprints = db.sprints ∧
    (delete_project project_id uid db).2.sprintAssigns = db.sprintAssigns ∧
    (delete_project project_id uid db).2.alerts = db.alerts ∧
    (delete_project project_id uid db).2.comments = db.comments := by
  cases hpmv : pmCheck project_id uid db with
  | none => exact absurd hpm ((pmCheck_eq_none_iff project_id uid db).mp hpmv)
  | some t =>
    cases hfp : db.projects.find? (fun p => p.P_ID == project_id) with
    | none => exact absurd hfp (find_project_isSome db project_id hp)
    | some p =>
        refine ⟨?_, ?_, ?_, ?_, ?_, ?_, ?_, ?_⟩
        · simp [delete_project, hpmv, hfp]
        · intro t2 ht
          simp only [delete_project, hpmv, hfp, get_teams] at ht
          have h2 := (List.mem_filter.mp ht).2
          simpa using h2
        · intro p2 hp2
          simp only [delete_project, hpmv, hfp] at hp2
          have h2 := (List.mem_filter.mp hp2).2
          simpa using h2
        · simp [delete_project, hpmv, hfp]
        · simp [delete_project, hpmv, hfp]
        · simp [delete_project, hpmv, hfp]
        · simp [delete_project, hpmv, hfp]
        · simp [delete_project, hpmv, hfp]

/-- Claim C6 witness: PM "alice" deletes project 1 of `dbFull`; the issue
and alert tables are untouched. -/
theorem delete_project_cascades_teams_only_witness :
    (delete_project 1 "alice" dbFull).2.issues = dbFull.issues ∧
    (delete_project 1 "alice" dbFull).2.alerts = dbFull.alerts := by
  have h := delete_project_cascades_teams_only 1 "alice" dbFull
    ⟨teamPM, by decide, rfl, rfl, rfl⟩ ⟨projectA, by decide, rfl⟩
  exact ⟨h.2.2.2.1, h.2.2.2.2.2.2.1⟩

/-- The SET list of `update_issue` does not contain the I_ID column. -/
theorem applyIssueUpdate_I_ID (data : ISSUE_SEND) (i : Issue) :
    (applyIssueUpdate data i).I_ID = i.I_ID := rfl

/-- The UPDATE of `update_issue` leaves the I_ID column of every row of the
table as it was. -/
theorem update_map_keys (issue_id : Nat) (uid : String) (data : ISSUE_SEND)
    (l : List Issue) :
    ((l.map fun i =>
      if (issueOwnB issue_id uid i) then applyIssueUpdate data i else i).map
        Issue.I_ID) = l.map Issue.I_ID := by
  rw [List.map_map]
  apply List.map_congr_left
  intro i _
  by_cases h : issueOwnB issue_id uid i = true
  · simp [h, applyIssueUpdate_I_ID]
  · simp [h]

/-- Claim C10: a successful POST /issues/update/\x7bissue_id\x7d by the issue's
sender or recipient returns the re-fetched row, which is the original row
with the SET columns overwritten: its FROM_UID is unchanged while its
FOR_UID is the payload value — either participant can reassign the
recipient, the sender can never change. -/
theorem update_issue_keeps_sender (issue_id : Nat) (data : ISSUE_SEND)
    (uid : String) (db : DB) (i : Issue)
    (hpk : (db.issues.map Issue.I_ID).Nodup) (hi : i ∈ db.issues)
    (hid : i.I_ID = issue_id)
    (hperm : i.FROM_UID = uid ∨ i.FOR_UID = uid) :
    (update_issue issue_id data uid db).1 =
        .ok (some (applyIssueUpdate data i)) ∧
    applyIssueUpdate data i ∈ (update_issue issue_id data uid db).2.issues ∧
    (applyIssueUpdate data i).FROM_UID = i.FROM_UID ∧
    (applyIssueUpdate data i).FOR_UID = data.FOR_UID := by
  have hown : issueOwnB issue_id uid i = true := by
    simp only [issueOwnB, Bool.and_eq_true, Bool.or_eq_true, beq_iff_eq]
    exact ⟨hid, hperm.symm⟩
  have hfind : db.issues.find? (issueOwnB issue_id uid) = some i := by
    apply find_eq_of_key_nodup Issue.I_ID db.issues i _ hpk hi hown
    intro b hb
    simp only [issueOwnB, Bool.and_eq_true, beq_iff_eq] at hb
    rw [hb.1, hid]
  have hperm2 : (!(i.FROM_UID == uid || i.FOR_UID == uid)) = false := by
    simp only [Bool.not_eq_false', Bool.or_eq_true, beq_iff_eq]
    exact hperm
  have hmem' : applyIssueUpdate data i ∈
      (db.issues.map fun j =>
        if (issueOwnB issue_id uid j) then applyIssueUpdate data j else j) :=
    List.mem_map.mpr ⟨i, hi, by simp [hown]⟩
  have hfind2 : ((db.issues.map fun j =>
      if (issueOwnB issue_id uid j) then applyIssueUpdate data j else j).find?
        fun j => j.I_ID == issue_id) = some (applyIssueUpdate data i) := by
    apply find_eq_of_key_nodup Issue.I_ID _ _ _ ?_ hmem' ?_ ?_
    · rw [update_map_keys]
      exact hpk
    · simp [applyIssueUpdate_I_ID, hid]
    · intro b hb
      simp only [beq_iff_eq] at hb
      rw [hb, applyIssueUpdate_I_ID, hid]
  refine ⟨?_, ?_, rfl, rfl⟩
  · simp [update_issue, hfind, hperm2, hfind2]
  · simp only [update_issue, hfind, hperm2]
    simpa using hmem'

/-- Claim C10 witness: "alice" (the sender) updates issue 1 of `dbIssue`
with a payload naming "carol" as the new recipient; the stored row keeps
FROM_UID "alice" and now carries FOR_UID "carol". -/
theorem update_issue_keeps_sender_witness :
    (update_issue 1 idata0 "alice" dbIssue).1 =
        .ok (some (applyIssueUpdate idata0 issueA)) ∧
    (applyIssueUpdate idata0 issueA).FROM_UID = "alice" ∧
    (applyIssueUpdate idata0 issueA).FOR_UID = "carol" := by
  have h := update_issue_keeps_sender 1 idata0 "alice" dbIssue issueA
    (by decide) (by decide) rfl (Or.inl rfl)
  exact ⟨h.1, h.2.2.1, h.2.2.2⟩

/-- Claim C5: POST /sprint-assign rejects a (Sprint, User) pair that already
has a SPRINT_ASSIGN row — the spec's Conflict case, HTTP 400 in the source —
leaving the table unchanged, and when the pair is not yet assigned it
inserts exactly one new row. -/
theorem sprint_assign_duplicate_rejected (data : SprintAssignIn)
    (uid : String) (today : Nat) (db : DB) :
    ((∃ r ∈ db.sprintAssigns, r.S_ID = data.S_ID ∧ r.UID = data.UID) →
        assign_user_to_sprint data uid today db =
          (.error ⟨400, "이미 해당 사용자에게 할당됨"⟩, db)) ∧
    ((∀ r ∈ db.sprintAssigns, ¬(r.S_ID = data.S_ID ∧ r.UID = data.UID)) →
        (assign_user_to_sprint data uid today db).2.sprintAssigns =
          db.sprintAssigns ++
            [{ ID := db.nextSAid, S_ID := data.S_ID, UID := data.UID,
               ASSIGNED_DATE := today }]) := by
  constructor
  · rintro ⟨r, hr, h1, h2⟩
    have hs : db.sprintAssigns.find?
        (fun x => x.S_ID == data.S_ID && x.UID == data.UID) ≠ none := by
      intro h
      rw [List.find?_eq_none] at h
      exact h r hr (by simp [h1, h2])
    cases hf : db.sprintAssigns.find?
        (fun x => x.S_ID == data.S_ID && x.UID == data.UID) with
    | none => exact absurd hf hs
    | some x => simp [assign_user_to_sprint, hf]
  · intro hall
    have hf : db.sprintAssigns.find?
        (fun x => x.S_ID == data.S_ID && x.UID == data.UID) = none := by
      rw [List.find?_eq_none]
      intro x hx hp
      simp only [Bool.and_eq_true, beq_iff_eq] at hp
      exact hall x hx hp
    simp [assign_user_to_sprint, hf]

/-- Claim C5 witness: "bob" is already assigned to sprint 1 in `dbAssigned`,
so repeating the assignment is rejected with the duplicate error and the
store is unchanged. -/
theorem sprint_assign_duplicate_rejected_witness :
    assign_user_to_sprint ⟨1, "bob"⟩ "alice" 3 dbAssigned =
      (.error ⟨400, "이미 해당 사용자에게 할당됨"⟩, dbAssigned) :=
  (sprint_assign_duplicate_rejected ⟨1, "bob"⟩ "alice" 3 dbAssigned).1
    ⟨assignA, by decide, rfl, rfl⟩

/-- Claim C3 counterexample: caller "alice" posts an alert declaring "bob"
(≠ "alice") as recipient on an empty store; the request succeeds and the
Alert row is inserted with recipient "bob" — the claimed rejection does not
exist in the handler. -/
theorem create_alert_foreign_recipient_counterexample :
    (create_alert adataBob "alice" emptyDB).1 =
        .ok { A_ID := 1, A_CATEGORY := .TEAM_INVITE, A_CONTENT := "hi",
              A_READ := false, UID := "bob", P_ID := none, I_ID := none } ∧
    (create_alert adataBob "alice" emptyDB).2.alerts =
        [{ A_ID := 1, A_CATEGORY := .TEAM_INVITE, A_CONTENT := "hi",
           A_READ := false, UID := "bob", P_ID := none, I_ID := none }] ∧
    "bob" ≠ "alice" :=
  ⟨rfl, rfl, by decide⟩

/-- Claim C3 amended: POST /alerts/create performs no recipient check at
all: for every payload and caller (under a nonzero, fresh auto-increment
id) it succeeds and inserts exactly one Alert row whose recipient UID is
taken from the payload — also when that UID differs from the caller's. -/
theorem create_alert_recipient_from_payload (data : AlertCreate)
    (uid : String) (db : DB) (h0 : db.nextAid ≠ 0)
    (hfresh : ∀ a ∈ db.alerts, a.A_ID ≠ db.nextAid) :
    (create_alert data uid db).1 =
        .ok { A_ID := db.nextAid, A_CATEGORY := data.A_CATEGORY,
              A_CONTENT := data.A_CONTENT, A_READ := false,
              UID := data.UID, P_ID := data.P_ID, I_ID := data.I_ID } ∧
    (create_alert data uid db).2.alerts =
      db.alerts ++
        [{ A_ID := db.nextAid, A_CATEGORY := data.A_CATEGORY,
           A_CONTENT := data.A_CONTENT, A_READ := false, UID := data.UID,
           P_ID := data.P_ID, I_ID := data.I_ID }] := by
  have hb : (db.nextAid == 0) = false := by simp [h0]
  have hfnone : db.alerts.find? (fun a => a.A_ID == db.nextAid) = none := by
    rw [List.find?_eq_none]
    intro a ha hp
    simp only [beq_iff_eq] at hp
    exact hfresh a ha hp
  have hfind : ((db.alerts ++
      [({ A_ID := db.nextAid, A_CATEGORY := data.A_CATEGORY,
          A_CONTENT := data.A_CONTENT, A_READ := false, UID := data.UID,
          P_ID := data.P_ID, I_ID := data.I_ID } : Alert)]).find?
        fun a => a.A_ID == db.nextAid) =
      some { A_ID := db.nextAid, A_CATEGORY := data.A_CATEGORY,
             A_CONTENT := data.A_CONTENT, A_READ := false, UID := data.UID,
             P_ID := data.P_ID, I_ID := data.I_ID } := by
    rw [find_append_of_none _ _ _ hfnone, List.find?_cons_of_pos _ (by simp)]
  simp [create_alert, hb, hfind]

/-- Claim C3 witness (amended): caller "carol" creates the same
"bob"-addressed alert and the handler succeeds, returning the inserted
row with the payload's recipient. -/
theorem create_alert_recipient_from_payload_witness :
    (create_alert adataBob "carol" emptyDB).1 =
        .ok { A_ID := 1, A_CATEGORY := .TEAM_INVITE, A_CONTENT := "hi",
              A_READ := false, UID := "bob", P_ID := none, I_ID := none } :=
  (create_alert_recipient_from_payload adataBob "carol" emptyDB
      (by decide) (by decide)).1

/-- Claim C4 counterexample: creating a sprint with
ASSIGNEES = ["u1", "u2", "u1"] on an empty store inserts two SPRINT_ASSIGN
rows for "u1" — not exactly one per distinct UID. -/
theorem create_sprint_duplicate_rows_counterexample :
    ((create_sprint sdataDup "alice" 5 emptyDB).2.sprintAssigns.filter
        (fun r => r.S_ID == 1 && r.UID == "u1")).length = 2 := by
  decide

/-- The assignment loop of `create_sprint` appends exactly the rows
`mkAssignRows` describes. -/
theorem insertAssignRows_spec (s_id today : Nat) (uids : List String)
    (db : DB) :
    (insertAssignRows s_id today uids db).sprintAssigns =
      db.sprintAssigns ++ mkAssignRows s_id today uids db.nextSAid := by
  induction uids generalizing db with
  | nil => simp [insertAssignRows, mkAssignRows]
  | cons u rest ih =>
      simp only [insertAssignRows, mkAssignRows]
      rw [ih]
      simp

/-- Among the rows the assignment loop appends for one sprint, the number
carrying a given UID is that UID's number of occurrences in the input
list. -/
theorem length_filter_mkAssignRows (s_id today : Nat) (uids : List String)
    (n : Nat) (u : String) :
    ((mkAssignRows s_id today uids n).filter
        (fun r => r.S_ID == s_id && r.UID == u)).length = uids.count u := by
  induction uids generalizing n with
  | nil => simp [mkAssignRows]
  | cons v rest ih =>
      simp only [mkAssignRows, List.filter_cons]
      by_cases h : v = u
      · subst h
        simp [List.count_cons, ih]
      · simp [List.count_cons, ih, h]

/-- Claim C4 amended: POST /sprints/create always succeeds (the handler has
no duplicate check and no error path) and inserts one SPRINT_ASSIGN row per
occurrence in ASSIGNEES — a repeated UID yields repeated rows for the new
sprint, not one row per distinct UID and not a Conflict. -/
theorem create_sprint_inserts_per_occurrence (data : SprintCreate)
    (uid : String) (today : Nat) (db : DB)
    (hfresh : ∀ r ∈ db.sprintAssigns, r.S_ID ≠ db.nextSid) (u : String) :
    (((create_sprint data uid today db).2.sprintAssigns).filter
        (fun r => r.S_ID == db.nextSid && r.UID == u)).length =
      (data.ASSIGNEES.getD []).count u := by
  have hold : (db.sprintAssigns.filter
      (fun r => r.S_ID == db.nextSid && r.UID == u)) = [] := by
    rw [List.filter_eq_nil_iff]
    intro r hr
    simp only [Bool.and_eq_true, beq_iff_eq]
    exact fun h => hfresh r hr h.1
  cases hA : data.ASSIGNEES with
  | none => simp [create_sprint, hA, hold]
  | some l =>
      simp only [create_sprint, hA]
      rw [insertAssignRows_spec]
      simp [List.filter_append, hold, length_filter_mkAssignRows]

/-- Claim C4 witness (amended): in the same bulk creation, "u2" occurs once
in the list and exactly one row for "u2" is inserted. -/
theorem create_sprint_inserts_per_occurrence_witness :
    ((create_sprint sdataDup "bob" 5 emptyDB).2.sprintAssigns.filter
        (fun r => r.S_ID == 1 && r.UID == "u2")).length =
      (sdataDup.ASSIGNEES.getD []).count "u2" :=
  create_sprint_inserts_per_occurrence sdataDup "bob" 5 emptyDB
    (by decide) "u2"

/-- Claim C8 counterexample: on an empty store no project with id 1 exists,
yet PUT /projects/1 answers 403 Forbidden (the PM check runs before the
existence check) — not the claimed 404 NotFound. -/
theorem unknown_project_forbidden_counterexample :
    emptyDB.projects = [] ∧
    (update_project 1 pdata0 "alice" emptyDB).1 =
      .error ⟨403, "이 프로젝트의 PM만 수정할 수 있습니다."⟩ :=
  ⟨rfl, rfl⟩

/-- Claim C8 amended: an operation on an unknown resource id never succeeds
and never mutates the store, but the error kind is not uniformly NotFound:
`update_sprint_stat` answers 404, while `update_project` / `delete_project`
answer 403 when the caller holds no PM TEAM row for the unknown id (and 404
only when a dangling PM row exists). -/
theorem unknown_id_always_denied (project_id sprint_id : Nat)
    (pdata : ProjectUpdate) (sdata : SprintUpdate) (uid : String) (db : DB)
    (hnp : ∀ p ∈ db.projects, p.P_ID ≠ project_id)
    (hns : ∀ s ∈ db.sprints, s.S_ID ≠ sprint_id) :
    (¬ ∃ r, (update_project project_id pdata uid db).1 = .ok r) ∧
    (¬ ∃ m, (delete_project project_id uid db).1 = .ok m) ∧
    (update_project project_id pdata uid db).2 = db ∧
    (delete_project project_id uid db).2 = db ∧
    update_sprint_stat sprint_id sdata uid db =
      (.error ⟨404, "해당 스프린트를 찾을 수 없습니다."⟩, db) ∧
    (∃ e, (update_project project_id pdata uid db).1 = .error e ∧
      (e.status = 403 ∨ e.status = 404)) ∧
    (∃ e, (delete_project project_id uid db).1 = .error e ∧
      (e.status = 403 ∨ e.status = 404)) := by
  have hfp : db.projects.find? (fun p => p.P_ID == project_id) = none := by
    rw [List.find?_eq_none]
    intro p hp hb
    simp only [beq_iff_eq] at hb
    exact hnp p hp hb
  have hfs : db.sprints.find? (fun s => s.S_ID == sprint_id) = none := by
    rw [List.find?_eq_none]
    intro s hs hb
    simp only [beq_iff_eq] at hb
    exact hns s hs hb
  cases hpm : pmCheck project_id uid db with
  | none =>
      refine ⟨?_, ?_, ?_, ?_, ?_, ?_, ?_⟩
      · simp [update_project, hpm]
      · simp [delete_project, hpm]
      · simp [update_project, hpm]
      · simp [delete_project, hpm]
      · simp [update_sprint_stat, hfs]
      · exact ⟨⟨403, "이 프로젝트의 PM만 수정할 수 있습니다."⟩,
          by simp [update_project, hpm], Or.inl rfl⟩
      · exact ⟨⟨403, "PM만 프로젝트를 삭제할 수 있습니다."⟩,
          by simp [delete_project, hpm], Or.inl rfl⟩
  | some t =>
      refine ⟨?_, ?_, ?_, ?_, ?_, ?_, ?_⟩
      · simp [update_project, hpm, hfp]
      · simp [delete_project, hpm, hfp]
      · simp [update_project, hpm, hfp]
      · simp [delete_project, hpm, hfp]
      · simp [update_sprint_stat, hfs]
      · exact ⟨⟨404, "프로젝트를 찾을 수 없습니다."⟩,
          by simp [update_project, hpm, hfp], Or.inr rfl⟩
      · exact ⟨⟨404, "해당 프로젝트가 존재하지 않습니다."⟩,
          by simp [delete_project, hpm, hfp], Or.inr rfl⟩

/-- Claim C8 witness (amended): sprint 2 does not exist in `dbAssigned`, so
its status update answers 404 and leaves the store unchanged. -/
theorem unknown_id_always_denied_witness :
    update_sprint_stat 2 ⟨SprintStatus.DONE⟩ "alice" dbAssigned =
      (.error ⟨404, "해당 스프린트를 찾을 수 없습니다."⟩, dbAssigned) :=
  (unknown_id_always_denied 1 2 pdata0 ⟨SprintStatus.DONE⟩ "alice"
      dbAssigned (by decide) (by decide)).2.2.2.2.1

end PMBackend
